import Mathlib

/-
Shallow embedding of the railwayApi coaster-monitoring service.

Sources embedded:
  * src/src/models/index.ts           (Coaster, Wagon records)
  * src/src/services/monitoringService.ts
      (timeStringToMinutes, calculateDailyCapacity, calculateRequiredWagons,
       calculateMaxSafeWagons, calculateRequiredPersonnel, getCoasterStatus)
  * src/src/services/dataService.ts
      (updateCoasterLocal, addWagonLocal, removeWagonLocal, the API-level
       addWagon / removeWagon / updateCoaster wrappers, getCoasterById, and
       the change-event handlers registered by initDataService)
  * src/src/services/redisService.ts
      (module connectivity state, isMaster, getConnectedNodesCount,
       publishChange, and the read-then-write master election of registerNode)

JavaScript numbers are embedded as ℚ (exact rational arithmetic); counters
declared as integers in the model are Int.  Math.floor is ⌊·⌋, Math.ceil is
⌈·⌉ and Math.round q is ⌊q + 1/2⌋.  File-system and broker effects are made
explicit: record stores are passed as lists, published messages are returned
as lists of channel/payload pairs.
-/

namespace RailwayApi

/-- Attraction record (models/index.ts, interface Coaster). -/
structure Coaster where
  id : String
  staffCount : Int
  clientCount : Int
  trackLength : ℚ
  hoursFrom : String
  hoursTo : String
  deriving Repr, DecidableEq

/-- Transport-unit record (models/index.ts, interface Wagon). -/
structure Wagon where
  id : String
  coasterId : String
  seatCount : Int
  wagonSpeed : ℚ
  deriving Repr, DecidableEq

/-- Splitting a character list at every colon, the effect of the source's
split(':') on the string's characters. -/
def splitOnColon : List Char → List (List Char)
  | [] => [[]]
  | ch :: rest =>
    let r := splitOnColon rest
    if ch = ':' then [] :: r
    else
      match r with
      | [] => [[ch]]
      | grp :: rest2 => (ch :: grp) :: rest2

/-- Numeric value of a decimal digit string, the Number conversion the source
applies to each part of a clock string.  Well-formed H:MM / HH:MM parts are
all digits; other characters (which Number would turn into NaN) are outside
the modelled domain. -/
def digitsToInt (cs : List Char) : Int :=
  cs.foldl (fun acc ch => acc * 10 + ((ch.toNat : Int) - 48)) 0

/-- Minutes since midnight of a clock string such as "8:00"
(monitoringService.ts, timeStringToMinutes).  The source destructures the
split into hours and minutes; strings that do not split into exactly two
parts would yield NaN there and are outside the modelled domain (mapped
to 0). -/
def timeStringToMinutes (timeString : String) : Int :=
  match (splitOnColon timeString.data).map digitsToInt with
  | [hours, minutes] => hours * 60 + minutes
  | _ => 0

/-- Constant WAGON_PERSONNEL_REQUIRED of monitoringService.ts. -/
def WAGON_PERSONNEL_REQUIRED : Int := 2

/-- Constant COASTER_BASE_PERSONNEL of monitoringService.ts. -/
def COASTER_BASE_PERSONNEL : Int := 1

/-- Constant WAGON_REST_TIME of monitoringService.ts (minutes). -/
def WAGON_REST_TIME : ℚ := 5

/-- Math.round of JavaScript: halves round toward positive infinity. -/
def jsRound (q : ℚ) : Int := ⌊q + 1 / 2⌋

/-- Daily client capacity of a coaster with its current wagons
(monitoringService.ts, calculateDailyCapacity). -/
def calculateDailyCapacity (coaster : Coaster) (wagons : List Wagon) : Int :=
  let startMinutes := timeStringToMinutes coaster.hoursFrom
  let endMinutes := timeStringToMinutes coaster.hoursTo
  let operationMinutes : ℚ := ((endMinutes - startMinutes : Int) : ℚ)
  if operationMinutes ≤ 0 ∨ wagons = [] then 0
  else
    let totalSpeed : ℚ := (wagons.map Wagon.wagonSpeed).sum
    let avgSpeed : ℚ := totalSpeed / (wagons.length : ℚ)
    let totalCapacity : ℚ := (((wagons.map Wagon.seatCount).sum : Int) : ℚ)
    let roundTripTime : ℚ := (coaster.trackLength / avgSpeed) / 60
    let totalRoundTime : ℚ := roundTripTime + WAGON_REST_TIME
    let safeOperationMinutes : ℚ := max 0 (operationMinutes - roundTripTime)
    let roundsPerWagon : Int := ⌊safeOperationMinutes / totalRoundTime⌋
    let dailyCapacity : ℚ := totalCapacity * (roundsPerWagon : ℚ) * (wagons.length : ℚ)
    ⌊dailyCapacity⌋

/-- Number of wagons needed to serve the desired client count
(monitoringService.ts, calculateRequiredWagons). -/
def calculateRequiredWagons (coaster : Coaster)
    (avgWagonCapacity avgWagonSpeed : ℚ) : Int :=
  if avgWagonCapacity ≤ 0 ∨ avgWagonSpeed ≤ 0 then 1
  else
    let startMinutes := timeStringToMinutes coaster.hoursFrom
    let endMinutes := timeStringToMinutes coaster.hoursTo
    let operationMinutes : ℚ := ((endMinutes - startMinutes : Int) : ℚ)
    if operationMinutes ≤ 0 then 1
    else
      let roundTripTime : ℚ := (coaster.trackLength / avgWagonSpeed) / 60 + WAGON_REST_TIME
      let safeOperationMinutes : ℚ :=
        max 0 (operationMinutes - (coaster.trackLength / avgWagonSpeed) / 60)
      let roundsPerDay : Int := ⌊safeOperationMinutes / roundTripTime⌋
      if roundsPerDay ≤ 0 then 999
      else
        let requiredCapacityPerRound : ℚ := (coaster.clientCount : ℚ) / (roundsPerDay : ℚ)
        let requiredWagons : Int := ⌈requiredCapacityPerRound / avgWagonCapacity⌉
        max 1 requiredWagons

/-- Maximum number of wagons that can safely operate
(monitoringService.ts, calculateMaxSafeWagons). -/
def calculateMaxSafeWagons (coaster : Coaster) (avgWagonSpeed : ℚ) : Int :=
  let startMinutes := timeStringToMinutes coaster.hoursFrom
  let endMinutes := timeStringToMinutes coaster.hoursTo
  let operationMinutes : ℚ := ((endMinutes - startMinutes : Int) : ℚ)
  let oneWayTripTime : ℚ := (coaster.trackLength / avgWagonSpeed) / 60
  if operationMinutes ≤ oneWayTripTime * 2 + WAGON_REST_TIME then 0
  else
    let safetyMinDistance : ℚ := 100
    let maxSafeWagons : Int := ⌊coaster.trackLength / safetyMinDistance⌋
    max 1 maxSafeWagons

/-- Personnel required for a coaster with the given wagon count
(monitoringService.ts, calculateRequiredPersonnel). -/
def calculateRequiredPersonnel (_coaster : Coaster) (wagonCount : Int) : Int :=
  COASTER_BASE_PERSONNEL + wagonCount * WAGON_PERSONNEL_REQUIRED

/-- Personnel verdict values 'OK' | 'SHORTAGE' | 'EXCESS' of monitoringService.ts. -/
inductive PersonnelVerdict
  | ok
  | shortage
  | excess
  deriving Repr, DecidableEq

/-- Overall status values 'OK' | 'PROBLEM' of monitoringService.ts. -/
inductive OverallStatus
  | ok
  | problem
  deriving Repr, DecidableEq

/-- The wagonCount block of the CoasterStatus report. -/
structure WagonCountInfo where
  current : Int
  required : Int
  safe : Int
  deriving Repr, DecidableEq

/-- The personnel block of the CoasterStatus report. -/
structure PersonnelInfo where
  current : Int
  required : Int
  status : PersonnelVerdict
  difference : Int
  deriving Repr, DecidableEq

/-- The clients block of the CoasterStatus report. -/
structure ClientsInfo where
  daily : Int
  serviceCapacity : Int
  fulfillmentPercent : Int
  deriving Repr, DecidableEq

/-- Per-coaster status report (monitoringService.ts, interface CoasterStatus). -/
structure CoasterStatus where
  id : String
  hoursFrom : String
  hoursTo : String
  wagonCount : WagonCountInfo
  personnel : PersonnelInfo
  clients : ClientsInfo
  status : OverallStatus
  details : List String
  deriving Repr, DecidableEq

/-- Status of a single coaster (monitoringService.ts, getCoasterStatus).  The
source reads the wagon roster from the record store; the embedding takes it as
the wagons argument.  The source mutates status and details inside if blocks;
the embedding expresses the same assignments as conditional expressions over
the identical conditions, in the identical order. -/
def getCoasterStatus (coaster : Coaster) (wagons : List Wagon) : CoasterStatus :=
  let avgWagonCapacity : ℚ :=
    if wagons.length > 0 then (((wagons.map Wagon.seatCount).sum : Int) : ℚ) / (wagons.length : ℚ)
    else 30
  let avgWagonSpeed : ℚ :=
    if wagons.length > 0 then (wagons.map Wagon.wagonSpeed).sum / (wagons.length : ℚ)
    else 1
  let maxSafeWagons := calculateMaxSafeWagons coaster avgWagonSpeed
  let dailyCapacity := calculateDailyCapacity coaster wagons
  let requiredWagons := calculateRequiredWagons coaster avgWagonCapacity avgWagonSpeed
  let currentPersonnel := coaster.staffCount
  let requiredPersonnel := calculateRequiredPersonnel coaster requiredWagons
  let personnelStatus : PersonnelVerdict :=
    if currentPersonnel - requiredPersonnel < 0 then .shortage
    else if ((currentPersonnel - requiredPersonnel : Int) : ℚ) > (requiredPersonnel : ℚ) * (1 / 2)
      then .excess
    else .ok
  let personnelDifference : Int :=
    if currentPersonnel - requiredPersonnel < 0 then |currentPersonnel - requiredPersonnel|
    else currentPersonnel - requiredPersonnel
  let details1 : List String :=
    if currentPersonnel < requiredPersonnel then
      ["Brakuje " ++ toString (requiredPersonnel - currentPersonnel) ++ " pracowników"]
    else if ((currentPersonnel : ℚ) > (requiredPersonnel : ℚ) * (3 / 2)) then
      ["Nadmiar " ++ toString (currentPersonnel - requiredPersonnel) ++ " pracowników"]
    else []
  let status1 : OverallStatus :=
    if currentPersonnel < requiredPersonnel then .problem
    else if ((currentPersonnel : ℚ) > (requiredPersonnel : ℚ) * (3 / 2)) then .problem
    else .ok
  let details2 : List String :=
    if (wagons.length : Int) < requiredWagons then
      details1 ++ ["Brak " ++ toString (requiredWagons - (wagons.length : Int)) ++ " wagonów"]
    else if dailyCapacity > coaster.clientCount * 2 then
      details1 ++ ["Nadmiar " ++ toString ((wagons.length : Int) - requiredWagons) ++ " wagonów"]
    else details1
  let status2 : OverallStatus :=
    if (wagons.length : Int) < requiredWagons then .problem
    else if dailyCapacity > coaster.clientCount * 2 then .problem
    else status1
  let details3 : List String :=
    if (wagons.length : Int) > maxSafeWagons then
      details2 ++
        ["Zbyt wiele wagonów dla bezpiecznej operacji, maksimum: " ++ toString maxSafeWagons]
    else details2
  let status : OverallStatus :=
    if (wagons.length : Int) > maxSafeWagons then .problem
    else status2
  let details4 : List String :=
    if details3 = [] then ["Wszystko działa poprawnie"] else details3
  let percentCapacity : Int :=
    if dailyCapacity > 0 then
      min (jsRound (((dailyCapacity : ℚ) / (coaster.clientCount : ℚ)) * 100)) 100
    else 0
  { id := coaster.id
    hoursFrom := coaster.hoursFrom
    hoursTo := coaster.hoursTo
    wagonCount :=
      { current := (wagons.length : Int)
        required := requiredWagons
        safe := maxSafeWagons }
    personnel :=
      { current := currentPersonnel
        required := requiredPersonnel
        status := personnelStatus
        difference := personnelDifference }
    clients :=
      { daily := coaster.clientCount
        serviceCapacity := dailyCapacity
        fulfillmentPercent := percentCapacity }
    status := status
    details := details4 }

/-- Stored coaster record: the Coaster model fields together with the stray
dl_trasy property that updateCoasterLocal writes on the JavaScript object.
Records built by createCoaster carry only the model fields, so dl_trasy is
absent (none) on them. -/
structure StoredCoaster where
  toCoaster : Coaster
  dl_trasy : Option ℚ := none
  deriving Repr, DecidableEq

/-- Update payload of updateCoaster: every field of the Coaster model apart
from the id is optional. -/
structure CoasterUpdate where
  id : String
  staffCount : Option Int := none
  clientCount : Option Int := none
  trackLength : Option ℚ := none
  hoursFrom : Option String := none
  hoursTo : Option String := none
  deriving Repr, DecidableEq

/-- Object-spread merge of an update into a stored record: every field the
payload supplies overrides the stored value. -/
def mergeUpdate (old : StoredCoaster) (updates : CoasterUpdate) : Coaster :=
  { id := updates.id
    staffCount := updates.staffCount.getD old.toCoaster.staffCount
    clientCount := updates.clientCount.getD old.toCoaster.clientCount
    trackLength := updates.trackLength.getD old.toCoaster.trackLength
    hoursFrom := updates.hoursFrom.getD old.toCoaster.hoursFrom
    hoursTo := updates.hoursTo.getD old.toCoaster.hoursTo }

/-- Lookup of a single coaster (dataService.ts, getCoasterById). -/
def getCoasterById (id : String) (coasters : List StoredCoaster) : Option StoredCoaster :=
  coasters.find? (fun c => c.toCoaster.id == id)

/-- Local coaster update (dataService.ts, updateCoasterLocal).  Returns the
updated record (none when the id is unknown) together with the new stored
list.  The source merges the update over the stored record and then runs
updatedCoaster.dl_trasy = coasters[index].dl_trasy, so only the stray
dl_trasy property is copied back from the stored record. -/
def updateCoasterLocal (updates : CoasterUpdate) (coasters : List StoredCoaster) :
    Option StoredCoaster × List StoredCoaster :=
  match coasters.findIdx? (fun c => c.toCoaster.id == updates.id) with
  | none => (none, coasters)
  | some index =>
    match coasters[index]? with
    | none => (none, coasters)
    | some old =>
      let updatedCoaster : StoredCoaster :=
        { toCoaster := mergeUpdate old updates
          dl_trasy := old.dl_trasy }
      (some updatedCoaster, coasters.set index updatedCoaster)

/-- Local wagon addition (dataService.ts, addWagonLocal): unconditional push
onto the stored list. -/
def addWagonLocal (wagon : Wagon) (wagons : List Wagon) : List Wagon :=
  wagons ++ [wagon]

/-- Local wagon removal (dataService.ts, removeWagonLocal).  Filters out the
wagon whose coasterId and id both match; when nothing matched the file is not
rewritten and false is returned. -/
def removeWagonLocal (coasterId wagonId : String) (wagons : List Wagon) :
    Bool × List Wagon :=
  let filteredWagons := wagons.filter (fun w => !(w.coasterId == coasterId && w.id == wagonId))
  if filteredWagons.length = wagons.length then (false, wagons)
  else (true, filteredWagons)

/-- Module-level connectivity state of redisService.ts: the isConnected and
isMasterNode flags and the connectedNodes set (modelled as a list of ids). -/
structure RedisState where
  isConnected : Bool
  isMasterNode : Bool
  connectedNodes : List String
  deriving Repr, DecidableEq

/-- State of the redisService module right after load: not connected, not
master, no known nodes. -/
def initialRedisState : RedisState :=
  { isConnected := false, isMasterNode := false, connectedNodes := [] }

/-- Connectivity state of a node whose initializeRedis call failed to reach
the broker: connect() throws, the catch returns null, and none of the
connect-driven registration runs, so the module state is untouched
(redisService.ts, initializeRedis). -/
def standaloneState : RedisState := initialRedisState

/-- Master read (redisService.ts, isMaster). -/
def isMaster (rs : RedisState) : Bool := rs.isMasterNode

/-- Connected-node count read (redisService.ts, getConnectedNodesCount). -/
def getConnectedNodesCount (rs : RedisState) : Nat := rs.connectedNodes.length

/-- Change events carried on the three replication channels that
initDataService subscribes to.  The payloads are the JSON bodies the source
publishes: the full record for updates and additions, the id pair for
removals; none of them carries an originating node id. -/
inductive ChangeEvent
  | coasterUpdated (c : Coaster)
  | wagonAdded (w : Wagon)
  | wagonRemoved (coasterId wagonId : String)
  deriving Repr, DecidableEq

/-- Publication of one message (redisService.ts, publishChange): a silent
no-op when the broker is not connected. -/
def publishChange (rs : RedisState) (channel : String) (message : ChangeEvent) :
    List (String × ChangeEvent) :=
  if rs.isConnected then [(channel, message)] else []

/-- The two record files of dataService.ts, as in-memory lists. -/
structure DataStore where
  coasters : List StoredCoaster
  wagons : List Wagon
  deriving Repr, DecidableEq

/-- API-level wagon addition (dataService.ts, addWagon): apply locally, then
publish the wagon_added event. -/
def addWagon (rs : RedisState) (wagon : Wagon) (store : DataStore) :
    DataStore × List (String × ChangeEvent) :=
  ({ store with wagons := addWagonLocal wagon store.wagons },
    publishChange rs "wagon_added" (.wagonAdded wagon))

/-- API-level wagon removal (dataService.ts, removeWagon): remove locally and
publish wagon_removed only when the local removal succeeded. -/
def removeWagon (rs : RedisState) (coasterId wagonId : String) (store : DataStore) :
    Bool × DataStore × List (String × ChangeEvent) :=
  let result := removeWagonLocal coasterId wagonId store.wagons
  if result.1 then
    (result.1, { store with wagons := result.2 },
      publishChange rs "wagon_removed" (.wagonRemoved coasterId wagonId))
  else
    (result.1, { store with wagons := result.2 }, [])

/-- API-level coaster update (dataService.ts, updateCoaster): update locally
and publish coaster_updated with the full result only on success. -/
def updateCoaster (rs : RedisState) (updates : CoasterUpdate) (store : DataStore) :
    Option StoredCoaster × DataStore × List (String × ChangeEvent) :=
  let result := updateCoasterLocal updates store.coasters
  match result.1 with
  | some updated =>
    (result.1, { store with coasters := result.2 },
      publishChange rs "coaster_updated" (.coasterUpdated updated.toCoaster))
  | none => (result.1, { store with coasters := result.2 }, [])

/-- Update payload carrying every field of a full coaster record, the shape a
coaster_updated payload takes after JSON.parse. -/
def toFullUpdate (c : Coaster) : CoasterUpdate :=
  { id := c.id
    staffCount := some c.staffCount
    clientCount := some c.clientCount
    trackLength := some c.trackLength
    hoursFrom := some c.hoursFrom
    hoursTo := some c.hoursTo }

/-- The change-event handlers registered by initDataService
(dataService.ts, lines 46-62): each parses the payload and runs the matching
Local mutation.  The handlers inspect nothing but the payload — these
channels carry no originating node id — and they publish nothing. -/
def applyChangeEvent (event : ChangeEvent) (store : DataStore) :
    DataStore × List (String × ChangeEvent) :=
  match event with
  | .coasterUpdated c =>
    ({ store with coasters := (updateCoasterLocal (toFullUpdate c) store.coasters).2 }, [])
  | .wagonAdded w =>
    ({ store with wagons := addWagonLocal w store.wagons }, [])
  | .wagonRemoved coasterId wagonId =>
    ({ store with wagons := (removeWagonLocal coasterId wagonId store.wagons).2 }, [])

/-- Per-node election state: the node's id, the value its last get of the
master_node key returned (none while no get has completed), and its local
isMasterNode flag. -/
structure ElectionNode where
  nodeId : String
  observedMaster : Option (Option String) := none
  isMasterNode : Bool := false
  deriving Repr, DecidableEq

/-- Broker-plus-nodes state for the master election of registerNode:
the shared master_node key and the participating nodes. -/
structure ElectionState where
  masterKey : Option String
  nodes : List ElectionNode
  deriving Repr, DecidableEq

/-- One broker interaction of registerNode (redisService.ts, lines 48-64):
the get of master_node, and the conditional set that follows it.  Each await
is a separate step, so steps of different nodes may interleave. -/
inductive ElectionStep
  | readMaster (i : Nat)
  | claimMaster (i : Nat)
  deriving Repr, DecidableEq

/-- Effect of one election step.  readMaster stores the current master_node
value in the node's local view; claimMaster runs the branch of registerNode
on the value that node observed: an observed empty key makes the node write
its own id and set isMasterNode, an observed occupied key makes it a
worker. -/
def electionStep (s : ElectionState) : ElectionStep → ElectionState
  | .readMaster i =>
    match s.nodes[i]? with
    | none => s
    | some n =>
      { s with nodes := s.nodes.set i { n with observedMaster := some s.masterKey } }
  | .claimMaster i =>
    match s.nodes[i]? with
    | none => s
    | some n =>
      match n.observedMaster with
      | none => s
      | some none =>
        { masterKey := some n.nodeId
          nodes := s.nodes.set i { n with isMasterNode := true } }
      | some (some _) =>
        { s with nodes := s.nodes.set i { n with isMasterNode := false } }

/-- Execution of a schedule of election steps. -/
def runElection (s : ElectionState) (steps : List ElectionStep) : ElectionState :=
  steps.foldl electionStep s

/-- Number of nodes whose local isMasterNode flag is set. -/
def masterCount (s : ElectionState) : Nat :=
  (s.nodes.filter (fun n => n.isMasterNode)).length

/-- Cluster of freshly started nodes: master_node unset, nobody has read it,
nobody is master. -/
def initElection (ids : List String) : ElectionState :=
  { masterKey := none
    nodes := ids.map (fun nid => { nodeId := nid, observedMaster := none, isMasterNode := false }) }

/-- registerNode of node i executed without interleaving: its get of
master_node is immediately followed by its conditional set. -/
def registerNodeSeq (s : ElectionState) (i : Nat) : ElectionState :=
  electionStep (electionStep s (.readMaster i)) (.claimMaster i)

/-- Relation between corresponding wagons of two rosters that are identical
except that the second wagon is at least as fast (and both speeds are valid,
positive, as the data model requires). -/
def SpeedBumped (w1 w2 : Wagon) : Prop :=
  w1.id = w2.id ∧ w1.coasterId = w2.coasterId ∧ w1.seatCount = w2.seatCount ∧
    0 < w1.wagonSpeed ∧ w1.wagonSpeed ≤ w2.wagonSpeed

/-- Overall-status trigger condition exactly as the specification words it,
for comparison against the source behaviour: its wagon-excess disjunct
requires the wagon count to exceed double the required count. -/
def claimProblemTrigger (st : CoasterStatus) : Prop :=
  st.personnel.current < st.personnel.required ∨
    (st.personnel.current : ℚ) > (st.personnel.required : ℚ) * (3 / 2) ∨
    st.wagonCount.current < st.wagonCount.required ∨
    (st.wagonCount.current > 2 * st.wagonCount.required ∧
      st.clients.serviceCapacity > st.clients.daily * 2) ∨
    st.wagonCount.current > st.wagonCount.safe

/-! Concrete inputs used by the witnesses, counterexamples and bug exhibits. -/

/-- Coaster of the concrete scenario of the specification (claim C4). -/
def c4ex : Coaster := ⟨"c4", 16, 60000, 1800, "8:00", "16:00"⟩

/-- Single wagon of the concrete scenario: 32 seats, 1.2 m/s. -/
def w4ex : Wagon := ⟨"w4", "c4", 32, 6 / 5⟩

/-- Coaster with a degenerate operating window: opens at 10:00, closes at
9:00, so the operation time is -60 minutes. -/
def cDegEx : Coaster := ⟨"c-deg", 0, 100, 100, "10:00", "9:00"⟩

/-- Coaster whose wagon fleet overshoots the demand: 400 daily clients on a
600 m track open 8:00-16:00. -/
def c6ex : Coaster := ⟨"c6", 3, 400, 600, "8:00", "16:00"⟩

/-- Two 10-seat wagons at 2 m/s for the overshoot scenario. -/
def ws6ex : List Wagon := [⟨"w61", "c6", 10, 2⟩, ⟨"w62", "c6", 10, 2⟩]

/-- Coaster on which every status check is nominal with the ws6ex fleet. -/
def cOkEx : Coaster := ⟨"c-ok", 5, 940, 600, "8:00", "16:00"⟩

/-- Coaster for the speed-monotonicity witness. -/
def c7ex : Coaster := ⟨"c7", 0, 0, 600, "8:00", "16:00"⟩

/-- Slow single-wagon fleet for the monotonicity witness. -/
def ws7slow : List Wagon := [⟨"a", "c7", 10, 1⟩]

/-- The same fleet with the wagon sped up to 2 m/s. -/
def ws7fast : List Wagon := [⟨"a", "c7", 10, 2⟩]

/-- Stored coaster created with trackLength 1800 (no stray dl_trasy). -/
def origC1 : StoredCoaster := ⟨⟨"c1", 10, 1000, 1800, "8:00", "16:00"⟩, none⟩

/-- Update payload supplying a new trackLength of 5. -/
def updC1 : CoasterUpdate := { id := "c1", trackLength := some 5 }

/-- Wagon used in the replication examples. -/
def w2ex : Wagon := ⟨"wagon-2", "coaster-2", 10, 1⟩

/-- Connectivity state of a node with a reachable broker. -/
def rsConnected : RedisState := ⟨true, false, []⟩

/-- Two-node cluster before anybody registered. -/
def election2 : ElectionState := initElection ["node-a", "node-b"]

/-- The interleaved two-node registration: both nodes get master_node before
either one sets it. -/
def racedElection : ElectionState :=
  runElection election2 [.readMaster 0, .readMaster 1, .claimMaster 0, .claimMaster 1]

/-! Claim theorems. -/

/-- C1 (code bug exhibit): updating coaster c1 (created with trackLength
1800) with a payload that supplies trackLength 5 leaves 5 in the store, and a
subsequent read returns 5, not the original 1800.  The source's preservation
line copies the stray dl_trasy property instead of trackLength, so the
claimed invariance fails. -/
theorem updateCoasterLocal_overwrites_trackLength :
    (getCoasterById "c1" (updateCoasterLocal updC1 [origC1]).2).map
        (fun sc => sc.toCoaster.trackLength) = some 5 ∧ (5 : ℚ) ≠ 1800 := by
  decide

/-- C2 (code bug exhibit): a connected node adding wagon w2ex publishes one
wagon_added event; when the broker delivers that same event back to the
publishing node (it subscribes to the channel), the handler applies it again
— the store ends with two copies of the wagon (2 local applications of one
logical mutation) — although it does not re-publish it. -/
theorem selfOriginated_change_reapplied :
    addWagon rsConnected w2ex ⟨[], []⟩
        = (⟨[], [w2ex]⟩, [("wagon_added", ChangeEvent.wagonAdded w2ex)]) ∧
    applyChangeEvent (.wagonAdded w2ex) ⟨[], [w2ex]⟩ = (⟨[], [w2ex, w2ex]⟩, []) := by
  decide

/-- C5 (counterexample): with the broker never reached, isMasterNode reads
false and the connected-node count reads 0, not the claimed true and 1. -/
theorem standalone_reads_counterexample :
    ¬ (isMaster standaloneState = true ∧ getConnectedNodesCount standaloneState = 1) := by
  decide

/-- C5 (amended): in standalone mode the cluster-status fields read as false
and 0, publication is a silent no-op, and the success/failure result of a
record operation is the local result whatever the coordination state is. -/
theorem standalone_degraded_reads :
    isMaster standaloneState = false ∧ getConnectedNodesCount standaloneState = 0 ∧
    (∀ channel message, publishChange standaloneState channel message = []) ∧
    (∀ rs coasterId wagonId store,
      (removeWagon rs coasterId wagonId store).1
        = (removeWagonLocal coasterId wagonId store.wagons).1) := by
  refine ⟨rfl, rfl, fun _ _ => rfl, ?_⟩
  intro rs coasterId wagonId store
  cases h : (removeWagonLocal coasterId wagonId store.wagons).1 <;>
    simp [removeWagon, h]

/-- C8: removing a (coasterId, wagonId) pair that matches no stored wagon
returns false, leaves the stored wagon list unchanged, and publishes
nothing. -/
theorem removeWagon_absent_pair_noop (rs : RedisState) (coasterId wagonId : String)
    (store : DataStore)
    (habsent : ∀ w ∈ store.wagons, ¬(w.coasterId = coasterId ∧ w.id = wagonId)) :
    removeWagon rs coasterId wagonId store = (false, store, []) := by
  have hfilter :
      store.wagons.filter (fun w => !(w.coasterId == coasterId && w.id == wagonId))
        = store.wagons := by
    apply List.filter_eq_self.mpr
    intro w hw
    have h := habsent w hw
    by_cases hc : w.coasterId = coasterId
    · have hid : ¬ w.id = wagonId := fun hid => h ⟨hc, hid⟩
      simp [hc, hid]
    · simp [hc]
  have hlocal : removeWagonLocal coasterId wagonId store.wagons = (false, store.wagons) := by
    simp only [removeWagonLocal, hfilter, eq_self_iff_true, if_true]
  simp only [removeWagon, hlocal]
  simp

/-- C8 witness: removing wagon-2 under coaster-x (it is stored under
coaster-2) fails and changes nothing. -/
theorem removeWagon_absent_pair_noop_witness :
    removeWagon rsConnected "coaster-x" "wagon-2" ⟨[], [w2ex]⟩
      = (false, ⟨[], [w2ex]⟩, []) :=
  removeWagon_absent_pair_noop rsConnected "coaster-x" "wagon-2" ⟨[], [w2ex]⟩ (by decide)

/-- C9 (counterexample): when both nodes of a fresh two-node cluster read the
master_node key before either writes it, both observe it unset, both set it,
and both end with isMasterNode — two masters, refuting at-most-one under
concurrent registration. -/
theorem interleaved_election_two_masters : ¬ (masterCount racedElection ≤ 1) := by
  decide

/-- C3 (counterexample): coaster c-deg has a degenerate operating window
(10:00 to 9:00, -60 minutes) and valid averages (30 seats, 1 m/s), yet
calculateRequiredWagons returns 1, not the insufficient-schedule sentinel 999
the claim requires on this path. -/
theorem degenerate_window_sentinel_counterexample :
    timeStringToMinutes cDegEx.hoursTo - timeStringToMinutes cDegEx.hoursFrom ≤ 0 ∧
    (0 : ℚ) < 30 ∧ (0 : ℚ) < 1 ∧
    calculateRequiredWagons cDegEx 30 1 = 1 ∧ (1 : Int) ≠ 999 := by
  refine ⟨by decide, by norm_num, by norm_num, ?_, by decide⟩
  have hF : timeStringToMinutes cDegEx.hoursFrom = 600 := by decide
  have hT : timeStringToMinutes cDegEx.hoursTo = 540 := by decide
  simp only [calculateRequiredWagons, hF, hT]
  norm_num

/-- C3 (amended): whenever the operating window is degenerate
(operationMinutes ≤ 0), the daily capacity is 0 and calculateRequiredWagons
returns 1 — through the invalid-average guard when the averages are ≤ 0 and
through the degenerate-window guard otherwise; the 999 sentinel is only
produced for positive windows. -/
theorem degenerate_window_outputs (c : Coaster) (ws : List Wagon)
    (avgCapacity avgSpeed : ℚ)
    (hdeg : timeStringToMinutes c.hoursTo - timeStringToMinutes c.hoursFrom ≤ 0) :
    calculateDailyCapacity c ws = 0 ∧ calculateRequiredWagons c avgCapacity avgSpeed = 1 := by
  have hq : ((timeStringToMinutes c.hoursTo - timeStringToMinutes c.hoursFrom : Int) : ℚ) ≤ 0 := by
    exact_mod_cast hdeg
  have hq' : ((timeStringToMinutes c.hoursTo : Int) : ℚ) - ((timeStringToMinutes c.hoursFrom : Int) : ℚ) ≤ 0 := by
    push_cast at hq
    exact hq
  constructor
  · simp only [calculateDailyCapacity]
    rw [if_pos (Or.inl (by push_cast; exact hq'))]
  · simp only [calculateRequiredWagons]
    by_cases hg : avgCapacity ≤ 0 ∨ avgSpeed ≤ 0
    · rw [if_pos hg]
    · rw [if_neg hg, if_pos (by push_cast; exact hq')]

/-- C3 witness: the degenerate coaster c-deg with a nonempty fleet and valid
averages gets capacity 0 and required-wagon count 1. -/
theorem degenerate_window_outputs_witness :
    calculateDailyCapacity cDegEx ws6ex = 0 ∧ calculateRequiredWagons cDegEx 30 1 = 1 :=
  degenerate_window_outputs cDegEx ws6ex 30 1 (by decide)

/-- C4: on the concrete scenario (16 staff, 60000 clients, 1800 m track, open
8:00 to 16:00, one 32-seat wagon at 1.2 m/s) the operating window is 480
minutes, the daily capacity is 480, the personnel verdict is a shortage and
the overall status is PROBLEM. -/
theorem concrete_scenario_status :
    timeStringToMinutes c4ex.hoursTo - timeStringToMinutes c4ex.hoursFrom = 480 ∧
    calculateDailyCapacity c4ex [w4ex] = 480 ∧
    (getCoasterStatus c4ex [w4ex]).personnel.status = PersonnelVerdict.shortage ∧
    (getCoasterStatus c4ex [w4ex]).status = OverallStatus.problem := by
  have h8 : timeStringToMinutes "8:00" = 480 := by decide
  have h16 : timeStringToMinutes "16:00" = 960 := by decide
  have hcap : calculateDailyCapacity c4ex [w4ex] = 480 := by
    simp only [calculateDailyCapacity, c4ex, w4ex, h8, h16, WAGON_REST_TIME]
    norm_num [max_def]
  have hreq : calculateRequiredWagons c4ex 32 (6 / 5) = 125 := by
    simp only [calculateRequiredWagons, c4ex, h8, h16, WAGON_REST_TIME]
    norm_num [max_def]
  have hsafe : calculateMaxSafeWagons c4ex (6 / 5) = 18 := by
    simp only [calculateMaxSafeWagons, c4ex, h8, h16, WAGON_REST_TIME]
    norm_num
  have hw1 : ([w4ex].map Wagon.seatCount) = [32] := rfl
  have hw2 : ([w4ex].map Wagon.wagonSpeed) = [6 / 5] := rfl
  have hwlen : ([w4ex] : List Wagon).length = 1 := rfl
  have hstaff : c4ex.staffCount = 16 := rfl
  have hclient : c4ex.clientCount = 60000 := rfl
  refine ⟨by decide, hcap, ?_, ?_⟩
  · simp only [getCoasterStatus, calculateRequiredPersonnel, COASTER_BASE_PERSONNEL,
      WAGON_PERSONNEL_REQUIRED, hw1, hw2, hwlen, hstaff, hclient]
    norm_num [hreq]
  · simp only [getCoasterStatus, calculateRequiredPersonnel, COASTER_BASE_PERSONNEL,
      WAGON_PERSONNEL_REQUIRED, hw1, hw2, hwlen, hstaff, hclient]
    norm_num [hreq, hsafe, hcap]

/-- Evaluation of the status report on the overshoot scenario: two wagons
where one is required, capacity 1880 against 400 daily clients. -/
theorem getCoasterStatus_c6ex_eval :
    getCoasterStatus c6ex ws6ex =
      { id := "c6", hoursFrom := "8:00", hoursTo := "16:00",
        wagonCount := { current := 2, required := 1, safe := 6 },
        personnel :=
          { current := 3, required := 3, status := PersonnelVerdict.ok, difference := 0 },
        clients := { daily := 400, serviceCapacity := 1880, fulfillmentPercent := 100 },
        status := OverallStatus.problem,
        details := ["Nadmiar 1 wagonów"] } := by
  have h8 : timeStringToMinutes "8:00" = 480 := by decide
  have h16 : timeStringToMinutes "16:00" = 960 := by decide
  have hcap : calculateDailyCapacity c6ex ws6ex = 1880 := by
    simp only [calculateDailyCapacity, c6ex, ws6ex, h8, h16, WAGON_REST_TIME]
    norm_num [max_def]
    all_goals simp
  have hreq : calculateRequiredWagons c6ex 10 2 = 1 := by
    simp only [calculateRequiredWagons, c6ex, h8, h16, WAGON_REST_TIME]
    norm_num [max_def, Int.ceil_eq_iff]
  have hsafe : calculateMaxSafeWagons c6ex 2 = 6 := by
    simp only [calculateMaxSafeWagons, c6ex, h8, h16, WAGON_REST_TIME]
    norm_num
  have hw1 : (ws6ex.map Wagon.seatCount) = [10, 10] := rfl
  have hw2 : (ws6ex.map Wagon.wagonSpeed) = [2, 2] := rfl
  have hwlen : ws6ex.length = 2 := rfl
  have hstaff : c6ex.staffCount = 3 := rfl
  have hclient : c6ex.clientCount = 400 := rfl
  have hid : c6ex.id = "c6" := rfl
  have hhf : c6ex.hoursFrom = "8:00" := rfl
  have hht : c6ex.hoursTo = "16:00" := rfl
  have hts : toString (1 : Int) = "1" := by decide
  have happ : "Nadmiar " ++ "1" ++ " wagonów" = "Nadmiar 1 wagonów" := by decide
  simp only [getCoasterStatus, calculateRequiredPersonnel, COASTER_BASE_PERSONNEL,
    WAGON_PERSONNEL_REQUIRED, hw1, hw2, hwlen, hstaff, hclient, hid, hhf, hht]
  norm_num [hreq, hsafe, hcap, jsRound, min_def, hts, happ]

/-- C6 (counterexample): the overshoot scenario has overall status PROBLEM
(daily capacity 1880 exceeds twice the 400 daily clients) although none
of the claim's trigger conditions holds — in particular the wagon count 2 is
not more than double the required count 1. -/
theorem overall_status_claim_counterexample :
    (getCoasterStatus c6ex ws6ex).status = OverallStatus.problem ∧
    ¬ claimProblemTrigger (getCoasterStatus c6ex ws6ex) := by
  rw [getCoasterStatus_c6ex_eval]
  refine ⟨rfl, ?_⟩
  norm_num [claimProblemTrigger]

set_option maxHeartbeats 2000000 in
/-- C6 (amended): the overall status is Problem exactly when the staff is
below the required personnel, or above 1.5 times it, or the wagon count is
below the required count, or the wagon count is at least the required count
while the daily capacity exceeds twice the target client count (the source
has no more-than-double-required test), or the wagon count exceeds the safe
maximum; an OK status carries exactly the all-nominal detail string. -/
theorem overall_status_iff (c : Coaster) (ws : List Wagon) :
    ((getCoasterStatus c ws).status = OverallStatus.problem ↔
      ((getCoasterStatus c ws).personnel.current < (getCoasterStatus c ws).personnel.required ∨
        ((getCoasterStatus c ws).personnel.current : ℚ) >
          ((getCoasterStatus c ws).personnel.required : ℚ) * (3 / 2) ∨
        (getCoasterStatus c ws).wagonCount.current < (getCoasterStatus c ws).wagonCount.required ∨
        ((getCoasterStatus c ws).wagonCount.required ≤ (getCoasterStatus c ws).wagonCount.current ∧
          (getCoasterStatus c ws).clients.serviceCapacity >
            (getCoasterStatus c ws).clients.daily * 2) ∨
        (getCoasterStatus c ws).wagonCount.safe < (getCoasterStatus c ws).wagonCount.current)) ∧
    ((getCoasterStatus c ws).status = OverallStatus.ok →
      (getCoasterStatus c ws).details = ["Wszystko działa poprawnie"]) := by
  simp only [getCoasterStatus]
  constructor
  · split_ifs <;> simp_all [not_lt]
  · split_ifs <;> simp_all [not_lt]

/-- C6 witness: on the nominal coaster c-ok the amended theorem yields the
single all-nominal detail string. -/
theorem overall_status_iff_witness :
    (getCoasterStatus cOkEx ws6ex).details = ["Wszystko działa poprawnie"] :=
  (overall_status_iff cOkEx ws6ex).2 (by
    have h8 : timeStringToMinutes "8:00" = 480 := by decide
    have h16 : timeStringToMinutes "16:00" = 960 := by decide
    have hcap : calculateDailyCapacity cOkEx ws6ex = 1880 := by
      simp only [calculateDailyCapacity, cOkEx, ws6ex, h8, h16, WAGON_REST_TIME]
      norm_num [max_def]
      all_goals simp
    have hreq : calculateRequiredWagons cOkEx 10 2 = 2 := by
      simp only [calculateRequiredWagons, cOkEx, h8, h16, WAGON_REST_TIME]
      norm_num [max_def, Int.ceil_eq_iff]
    have hsafe : calculateMaxSafeWagons cOkEx 2 = 6 := by
      simp only [calculateMaxSafeWagons, cOkEx, h8, h16, WAGON_REST_TIME]
      norm_num
    have hw1 : (ws6ex.map Wagon.seatCount) = [10, 10] := rfl
    have hw2 : (ws6ex.map Wagon.wagonSpeed) = [2, 2] := rfl
    have hwlen : ws6ex.length = 2 := rfl
    have hstaff : cOkEx.staffCount = 5 := rfl
    have hclient : cOkEx.clientCount = 940 := rfl
    simp only [getCoasterStatus, calculateRequiredPersonnel, COASTER_BASE_PERSONNEL,
      WAGON_PERSONNEL_REQUIRED, hw1, hw2, hwlen, hstaff, hclient]
    norm_num [hreq, hsafe, hcap])

/-- Setting a list element to one that fails the predicate never increases
the filtered length. -/
theorem length_filter_set_le {α : Type} (p : α → Bool) (l : List α) (i : Nat) (a : α)
    (ha : p a = false) :
    ((l.set i a).filter p).length ≤ (l.filter p).length := by
  induction l generalizing i with
  | nil => simp
  | cons x xs ih =>
    cases i with
    | zero =>
      cases hx : p x
      · simp [List.filter_cons, hx, ha]
      · simp [List.filter_cons, hx, ha]
    | succ j =>
      have h := ih j
      cases hx : p x <;> simp [List.filter_cons, hx] <;> omega

/-- Setting a list element to one with the same predicate value keeps the
filtered length. -/
theorem length_filter_set_congr {α : Type} (p : α → Bool) (l : List α) (i : Nat) (a b : α)
    (hb : l[i]? = some b) (hab : p a = p b) :
    ((l.set i a).filter p).length = (l.filter p).length := by
  induction l generalizing i with
  | nil => simp at hb
  | cons x xs ih =>
    cases i with
    | zero =>
      have hxb : x = b := by simpa using hb
      have hpa : p a = p x := by rw [hab, hxb]
      cases hpx : p x <;> simp [List.filter_cons, hpx, hpa.trans hpx]
    | succ j =>
      have hb' : xs[j]? = some b := by simpa using hb
      have h := ih j hb'
      cases hx : p x <;> simp [List.filter_cons, hx] <;> omega

/-- Setting one element of a list with no predicate-satisfying member leaves
at most one satisfying member. -/
theorem length_filter_set_of_zero {α : Type} (p : α → Bool) (l : List α) (i : Nat) (a : α)
    (hz : (l.filter p).length = 0) :
    ((l.set i a).filter p).length ≤ 1 := by
  induction l generalizing i with
  | nil => simp
  | cons x xs ih =>
    have hx : p x = false := by
      cases hx : p x
      · rfl
      · simp [List.filter_cons, hx] at hz
    have hxs : (xs.filter p).length = 0 := by
      simpa [List.filter_cons, hx] using hz
    cases i with
    | zero =>
      cases hpa : p a
      · simp [List.filter_cons, hpa, hxs]
      · simp [List.filter_cons, hpa, hxs]
    | succ j =>
      have h := ih j hxs
      simp [List.filter_cons, hx]
      omega

/-- One uninterleaved registerNode execution preserves the election
invariant: at most one flagged master, and none while master_node is
unset. -/
theorem registerNodeSeq_inv (s : ElectionState) (i : Nat)
    (h1 : masterCount s ≤ 1) (h2 : s.masterKey = none → masterCount s = 0) :
    masterCount (registerNodeSeq s i) ≤ 1 ∧
      ((registerNodeSeq s i).masterKey = none → masterCount (registerNodeSeq s i) = 0) := by
  cases hni : s.nodes[i]? with
  | none =>
    have hstep : registerNodeSeq s i = s := by
      simp only [registerNodeSeq, electionStep, hni]
    rw [hstep]
    exact ⟨h1, h2⟩
  | some n =>
    have hlen : i < s.nodes.length := by
      by_contra hge
      rw [List.getElem?_eq_none (by omega)] at hni
      exact Option.noConfusion hni
    cases hmk : s.masterKey with
    | none =>
      have hs1 : (s.nodes.set i { n with observedMaster := some (none : Option String) })[i]?
          = some { n with observedMaster := some (none : Option String) } :=
        List.getElem?_set_eq_of_lt _ (by simpa using hlen)
      have hstep : registerNodeSeq s i =
          { masterKey := some n.nodeId
            nodes := s.nodes.set i
              { nodeId := n.nodeId, observedMaster := some (none : Option String),
                isMasterNode := true } } := by
        simp only [registerNodeSeq, electionStep, hni, hmk, hs1, List.set_set]
      rw [hstep]
      constructor
      · simpa [masterCount] using
          length_filter_set_of_zero (fun nd => nd.isMasterNode) s.nodes i
            { nodeId := n.nodeId, observedMaster := some (none : Option String),
              isMasterNode := true }
            (by simpa [masterCount] using h2 hmk)
      · intro hcontra
        exact Option.noConfusion hcontra
    | some m =>
      have hs1 : (s.nodes.set i { n with observedMaster := some (some m) })[i]?
          = some { n with observedMaster := some (some m) } :=
        List.getElem?_set_eq_of_lt _ (by simpa using hlen)
      have hstep : registerNodeSeq s i =
          { masterKey := some m
            nodes := s.nodes.set i
              { nodeId := n.nodeId, observedMaster := some (some m),
                isMasterNode := false } } := by
        simp only [registerNodeSeq, electionStep, hni, hmk, hs1, List.set_set]
      rw [hstep]
      constructor
      · have hle :=
          length_filter_set_le (fun nd => nd.isMasterNode) s.nodes i
            { nodeId := n.nodeId, observedMaster := some (some m), isMasterNode := false } rfl
        simp only [masterCount] at *
        omega
      · intro hcontra
        exact Option.noConfusion hcontra

/-- The election invariant survives any number of uninterleaved
registrations. -/
theorem foldl_registerNodeSeq_inv (order : List Nat) (s : ElectionState)
    (h1 : masterCount s ≤ 1) (h2 : s.masterKey = none → masterCount s = 0) :
    masterCount (List.foldl registerNodeSeq s order) ≤ 1 := by
  induction order generalizing s with
  | nil => simpa using h1
  | cons i rest ih =>
    have h := registerNodeSeq_inv s i h1 h2
    exact ih _ h.1 h.2

/-- C9 (amended): starting from a fresh cluster, any sequence of
registerNode executions in which each node's read of master_node is
immediately followed by its conditional write (no interleaving) leaves at
most one node flagged master; interleaving the two broker operations of two
nodes can instead produce two masters, as the counterexample shows. -/
theorem sequential_registration_at_most_one_master (ids : List String) (order : List Nat) :
    masterCount (List.foldl registerNodeSeq (initElection ids) order) ≤ 1 := by
  have h0 : masterCount (initElection ids) = 0 := by
    simp [masterCount, initElection, List.filter_map, Function.comp]
  exact foldl_registerNodeSeq_inv order _ (by omega) (fun _ => h0)

/-- Under the SpeedBumped relation the total wagon speed never decreases. -/
theorem speed_sum_le_of_speedBumped {ws1 ws2 : List Wagon}
    (h : List.Forall₂ SpeedBumped ws1 ws2) :
    (ws1.map Wagon.wagonSpeed).sum ≤ (ws2.map Wagon.wagonSpeed).sum := by
  induction h with
  | nil => simp
  | cons hrel _ ih =>
    simp only [List.map_cons, List.sum_cons]
    exact add_le_add hrel.2.2.2.2 ih

/-- Under the SpeedBumped relation the seat-count sums agree. -/
theorem seat_sum_eq_of_speedBumped {ws1 ws2 : List Wagon}
    (h : List.Forall₂ SpeedBumped ws1 ws2) :
    (ws1.map Wagon.seatCount).sum = (ws2.map Wagon.seatCount).sum := by
  induction h with
  | nil => rfl
  | cons hrel _ ih =>
    simp only [List.map_cons, List.sum_cons, hrel.2.2.1, ih]

/-- The total speed of a SpeedBumped-related roster is nonnegative. -/
theorem speed_sum_nonneg_of_speedBumped {ws1 ws2 : List Wagon}
    (h : List.Forall₂ SpeedBumped ws1 ws2) :
    0 ≤ (ws1.map Wagon.wagonSpeed).sum := by
  induction h with
  | nil => simp
  | cons hrel _ ih =>
    simp only [List.map_cons, List.sum_cons]
    exact add_nonneg hrel.2.2.2.1.le ih

/-- The total speed of a nonempty SpeedBumped-related roster is positive. -/
theorem speed_sum_pos_of_speedBumped {ws1 ws2 : List Wagon}
    (h : List.Forall₂ SpeedBumped ws1 ws2) (hne : ws1 ≠ []) :
    0 < (ws1.map Wagon.wagonSpeed).sum := by
  cases h with
  | nil => exact absurd rfl hne
  | cons hrel htail =>
    simp only [List.map_cons, List.sum_cons]
    have h0 := speed_sum_nonneg_of_speedBumped htail
    have h1 := hrel.2.2.2.1
    linarith

/-- Core monotonicity of the daily-capacity formula in the average speed:
with a nonnegative track, nonnegative capacity and a positive lower average
speed, a higher average speed gives at least as many floor-rounded rounds and
hence at least as much capacity. -/
theorem capacity_formula_mono (L op C : ℚ) (n : Nat) (a1 a2 : ℚ)
    (hL : 0 ≤ L) (hC : 0 ≤ C) (ha1 : 0 < a1) (ha12 : a1 ≤ a2) :
    ⌊C * ((⌊(max 0 (op - L / a1 / 60)) / (L / a1 / 60 + 5)⌋ : Int) : ℚ) * (n : ℚ)⌋ ≤
      ⌊C * ((⌊(max 0 (op - L / a2 / 60)) / (L / a2 / 60 + 5)⌋ : Int) : ℚ) * (n : ℚ)⌋ := by
  have ha2 : 0 < a2 := lt_of_lt_of_le ha1 ha12
  have hr1 : (0 : ℚ) ≤ L / a1 / 60 := div_nonneg (div_nonneg hL ha1.le) (by norm_num)
  have hr2 : (0 : ℚ) ≤ L / a2 / 60 := div_nonneg (div_nonneg hL ha2.le) (by norm_num)
  have hr21 : L / a2 / 60 ≤ L / a1 / 60 := by
    have hinner : L / a2 ≤ L / a1 := div_le_div_of_nonneg_left hL ha1 ha12
    exact (div_le_div_iff_of_pos_right (by norm_num : (0 : ℚ) < 60)).mpr hinner
  have hsafe : max 0 (op - L / a1 / 60) ≤ max 0 (op - L / a2 / 60) :=
    max_le_max le_rfl (by linarith)
  have hsafe2 : (0 : ℚ) ≤ max 0 (op - L / a2 / 60) := le_max_left _ _
  have htot2 : (0 : ℚ) < L / a2 / 60 + 5 := by linarith
  have htotle : L / a2 / 60 + 5 ≤ L / a1 / 60 + 5 := by linarith
  have hq :
      (max 0 (op - L / a1 / 60)) / (L / a1 / 60 + 5) ≤
        (max 0 (op - L / a2 / 60)) / (L / a2 / 60 + 5) :=
    div_le_div₀ hsafe2 hsafe htot2 htotle
  have hfl := Int.floor_le_floor hq
  have hflQ : ((⌊(max 0 (op - L / a1 / 60)) / (L / a1 / 60 + 5)⌋ : Int) : ℚ) ≤
      ((⌊(max 0 (op - L / a2 / 60)) / (L / a2 / 60 + 5)⌋ : Int) : ℚ) := by
    exact_mod_cast hfl
  apply Int.floor_le_floor
  have hmul := mul_le_mul_of_nonneg_left hflQ hC
  exact mul_le_mul_of_nonneg_right hmul (by positivity)

set_option maxHeartbeats 1000000 in
/-- C7: for a positive operating window, a positive track length and a valid
nonempty roster, replacing every wagon by one identical except at least as
fast never decreases the computed daily capacity. -/
theorem dailyCapacity_monotone_in_speed (c : Coaster) (ws1 ws2 : List Wagon)
    (hne : ws1 ≠ [])
    (hop : 0 < timeStringToMinutes c.hoursTo - timeStringToMinutes c.hoursFrom)
    (htrack : 0 < c.trackLength)
    (hseats : ∀ w ∈ ws1, 0 ≤ w.seatCount)
    (hrel : List.Forall₂ SpeedBumped ws1 ws2) :
    calculateDailyCapacity c ws1 ≤ calculateDailyCapacity c ws2 := by
  have hlen : ws1.length = ws2.length := hrel.length_eq
  have hne2 : ws2 ≠ [] := by
    intro h2
    rw [h2, List.length_nil] at hlen
    exact hne (List.length_eq_zero.mp hlen)
  have hnpos : 0 < ws1.length := List.length_pos.mpr hne
  have hopQ : (0 : ℚ) <
      ((timeStringToMinutes c.hoursTo - timeStringToMinutes c.hoursFrom : Int) : ℚ) := by
    exact_mod_cast hop
  have hnot1 :
      ¬(((timeStringToMinutes c.hoursTo - timeStringToMinutes c.hoursFrom : Int) : ℚ) ≤ 0 ∨
        ws1 = []) := by
    push_neg
    exact ⟨hopQ, hne⟩
  have hnot2 :
      ¬(((timeStringToMinutes c.hoursTo - timeStringToMinutes c.hoursFrom : Int) : ℚ) ≤ 0 ∨
        ws2 = []) := by
    push_neg
    exact ⟨hopQ, hne2⟩
  have hCnonneg : (0 : ℚ) ≤ (((ws1.map Wagon.seatCount).sum : Int) : ℚ) := by
    have h : (0 : Int) ≤ (ws1.map Wagon.seatCount).sum := by
      apply List.sum_nonneg
      intro a ha
      obtain ⟨w, hw, rfl⟩ := List.mem_map.mp ha
      exact hseats w hw
    exact_mod_cast h
  have hnQ : (0 : ℚ) < (ws1.length : ℚ) := by exact_mod_cast hnpos
  have ha1 : (0 : ℚ) < (ws1.map Wagon.wagonSpeed).sum / (ws1.length : ℚ) :=
    div_pos (speed_sum_pos_of_speedBumped hrel hne) hnQ
  have ha12 : (ws1.map Wagon.wagonSpeed).sum / (ws1.length : ℚ) ≤
      (ws2.map Wagon.wagonSpeed).sum / (ws1.length : ℚ) :=
    (div_le_div_iff_of_pos_right hnQ).mpr (speed_sum_le_of_speedBumped hrel)
  simp only [calculateDailyCapacity, WAGON_REST_TIME]
  rw [if_neg hnot1, if_neg hnot2, ← seat_sum_eq_of_speedBumped hrel, ← hlen]
  exact capacity_formula_mono c.trackLength _ _ ws1.length _ _ htrack.le hCnonneg ha1 ha12

/-- C7 witness: speeding the single 10-seat wagon of coaster c7 up from
1 m/s to 2 m/s raises the daily capacity (310 to 470), in particular it does
not decrease. -/
theorem dailyCapacity_monotone_in_speed_witness :
    calculateDailyCapacity c7ex ws7slow ≤ calculateDailyCapacity c7ex ws7fast :=
  dailyCapacity_monotone_in_speed c7ex ws7slow ws7fast
    (by decide) (by decide) (by norm_num [c7ex]) (by decide)
    (by
      refine List.Forall₂.cons ?_ List.Forall₂.nil
      refine ⟨rfl, rfl, rfl, ?_, ?_⟩ <;> norm_num [ws7slow, ws7fast, SpeedBumped])

/-- C10: the local wagon-add appends unconditionally — the list always grows
by exactly one, with no id-uniqueness or coaster-existence check — so
applying the same wagon_added event twice stores two wagons with the same
id. -/
theorem addWagonLocal_unchecked_append (w : Wagon) (ws : List Wagon) :
    (addWagonLocal w ws).length = ws.length + 1 ∧
    2 ≤ ((addWagonLocal w (addWagonLocal w ws)).filter (fun x => x.id == w.id)).length := by
  constructor
  · simp [addWagonLocal]
  · simp [addWagonLocal, List.filter_append]

end RailwayApi
